import Mathlib

/-!
Verification of the metalpromo-design-generator core pipeline.

This file gives a shallow embedding of the generation fan-out
(`openai_adapter.py`), the upload retry loop, the image optimizer and the
batch upload coordinator (`zoho_adapter.py`), and proves or refutes the
specification's claims about them.  External library calls (the OpenAI
client, `requests`, `base64`, PIL) are modelled as explicit oracle
functions passed in as parameters; the repository's own control flow is
translated directly from the source.
-/

namespace MetalPromo

/-- A reference image entry as supplied to the generation entry points:
a data-URI-style string plus a role label (`openai_adapter.py`,
`input_images_data` items). -/
structure InputImage where
  image_data_uri : String
  role : String
deriving DecidableEq, Repr

/-- One element of the provider's `response.data` list: each of the two
payload fields may be absent (`none`) or present. -/
structure RespItem where
  url : Option String
  b64_json : Option String
deriving DecidableEq, Repr

/-- Outcome of one provider API call, covering the exception arms of
`_generate_single_image` (`openai.APIConnectionError`,
`openai.RateLimitError`, `openai.APIStatusError`, bare `Exception`)
as well as a successful response carrying a data list. -/
inductive ApiOutcome where
  | ok (data : List RespItem)
  | connErr (msg : String)
  | rateLimitErr (msg : String)
  | statusErr (code : Nat) (msg : String)
  | otherErr (msg : String)
deriving DecidableEq, Repr

/-- Which provider entry point `_generate_single_image` invokes:
`client.images.generate` (text only) or `client.images.edit` together
with the list of successfully decoded input images. -/
inductive ApiCall where
  | generate
  | edit (images : List (List Nat))
deriving DecidableEq, Repr

/-- The per-variation result dictionary built by `_generate_single_image`
and collected by `_generate_multiple_variations`.  On failure dicts the
`url`/`b64_json` keys are absent, modelled as `none`. -/
structure GenResult where
  style : String
  success : Bool
  error : Option String
  url : Option String
  b64_json : Option String
deriving DecidableEq, Repr

/-- Python truthiness of an optional string: `None` and `""` are falsy. -/
def truthyStr : Option String → Bool
  | none => false
  | some s => !s.data.isEmpty

/-- Python blankness test `not s or not s.strip()`: true exactly when
every character of `s` is whitespace (in particular when `s` is empty). -/
def pyBlank (s : String) : Bool :=
  s.data.all Char.isWhitespace

/-- Splitting a character list at the first comma: the part before it
and the part after it, or `none` when no comma occurs. -/
def splitCharsAtComma : List Char → Option (List Char × List Char)
  | [] => none
  | c :: cs =>
    if c = ',' then some ([], cs)
    else
      match splitCharsAtComma cs with
      | none => none
      | some (a, b) => some (c :: a, b)

/-- `s.split(',', 1)`: split on the first comma, `none` when the string
contains no comma (in which case the Python tuple unpacking raises). -/
def splitFirstComma (s : String) : Option (String × String) :=
  match splitCharsAtComma s.data with
  | none => none
  | some (a, b) => some (⟨a⟩, ⟨b⟩)

/-- Decoding of a single entry of the input-image loop of
`_generate_single_image` (lines 112-133): an empty or blank
`image_data_uri` is skipped, otherwise the string is split on the first
comma and the remainder is base64-decoded via the `b64` oracle; any
failure skips the entry. -/
def decodeOne (b64 : String → Option (List Nat)) (it : InputImage) :
    Option (List Nat) :=
  if pyBlank it.image_data_uri then none
  else
    match splitFirstComma it.image_data_uri with
    | none => none
    | some (_, enc) => b64 enc

/-- The full decode loop: the list of successfully decoded images, in
order, with failed entries skipped (`image_bytes_list`). -/
def decodeImages (b64 : String → Option (List Nat))
    (imgs : List InputImage) : List (List Nat) :=
  imgs.filterMap (decodeOne b64)

/-- Endpoint selection of `_generate_single_image` (line 136):
`use_generate_endpoint = len(image_bytes_list) == 0`. -/
def apiCallOf (b64 : String → Option (List Nat))
    (imgs : List InputImage) : ApiCall :=
  let ds := decodeImages b64 imgs
  if ds.isEmpty then ApiCall.generate else ApiCall.edit ds

/-- The style label attached to every result dictionary:
`modifier_title if modifier_title else "Standard"`; an absent or empty
title yields `"Standard"`. -/
def styleName : Option (String × String) → String
  | none => "Standard"
  | some (t, _) => if t.isEmpty then "Standard" else t

/-- Normalization of the provider outcome into the returned dictionary
(lines 192-305 of `_generate_single_image`): a response whose first data
object carries a truthy `url` or `b64_json` yields a success dict; a
response with an empty data list, or whose first object carries neither,
yields `None`; every caught exception yields a failure dict carrying the
style label and an error message. -/
def handleResponse (m : Option (String × String)) (out : ApiOutcome) :
    Option GenResult :=
  match out with
  | ApiOutcome.ok data =>
    match data with
    | [] => none
    | obj :: _ =>
      if truthyStr obj.url then
        some ⟨styleName m, true, none, obj.url, none⟩
      else if truthyStr obj.b64_json then
        some ⟨styleName m, true, none, none, obj.b64_json⟩
      else none
  | ApiOutcome.connErr e => some ⟨styleName m, false, some e, none, none⟩
  | ApiOutcome.rateLimitErr e => some ⟨styleName m, false, some e, none, none⟩
  | ApiOutcome.statusErr _ e => some ⟨styleName m, false, some e, none, none⟩
  | ApiOutcome.otherErr e => some ⟨styleName m, false, some e, none, none⟩

/-- `_generate_single_image(prompt_text, input_images_data, prompt_modifier)`:
guards on client initialization and on a non-blank prompt, decodes the
input images, selects the endpoint by decoded count, performs the single
API call and normalizes its outcome.  `clientOk` models whether the
module-level OpenAI client was initialized, `b64` the base64 decoder and
`api` the provider. -/
def generate_single_image (clientOk : Bool)
    (b64 : String → Option (List Nat)) (api : ApiCall → ApiOutcome)
    (prompt_text : String) (input_images_data : List InputImage)
    (prompt_modifier : Option (String × String)) : Option GenResult :=
  if !clientOk then none
  else if pyBlank prompt_text then none
  else handleResponse prompt_modifier (api (apiCallOf b64 input_images_data))

/-- What `future.result()` delivers for one submitted task: either the
task's return value (possibly `None`) or a raised exception. -/
inductive TaskOutcome where
  | value (r : Option GenResult)
  | exn (msg : String)
deriving DecidableEq, Repr

/-- The result-collection body of `_generate_multiple_variations`
(lines 356-371): a truthy result is kept as-is, a `None` result and a
raised exception are each converted into a failure record carrying the
task's style label. -/
def collectResult (m : String × String) (o : TaskOutcome) : GenResult :=
  match o with
  | TaskOutcome.value (some r) => r
  | TaskOutcome.value none =>
      ⟨m.1, false, some "Generation returned None", none, none⟩
  | TaskOutcome.exn e => ⟨m.1, false, some e, none, none⟩

/-- `_generate_multiple_variations(prompt_text, input_images_data)`
(lines 308-411): with an empty modifier catalog it falls back to a
single unstyled generation and returns `[result] if result else []`
(line 334, before the diagnostics block); otherwise it submits one task
per modifier and collects exactly one record per task (lines 347-371).
When every collected record has a falsy `success` field, the
all-failures diagnostics block (lines 377-409) runs, and its line 405
evaluates `len(image_bytes_list)` — `image_bytes_list` is a local
variable of `_generate_single_image` that is undefined in this
function's scope, so the block raises an uncaught `NameError` and the
function returns nothing; with at least one success the collected list
is returned (line 411).  `run` models the execution of a submitted task
(thread plus `future.result()`); its faithful instantiation is
`pureRun` below. -/
def generate_multiple_variations (clientOk : Bool)
    (b64 : String → Option (List Nat)) (api : ApiCall → ApiOutcome)
    (run : String × String → TaskOutcome)
    (prompt_text : String) (input_images_data : List InputImage)
    (modifiers : List (String × String)) : Except String (List GenResult) :=
  if modifiers.isEmpty then
    match generate_single_image clientOk b64 api prompt_text
        input_images_data none with
    | some r => Except.ok [r]
    | none => Except.ok []
  else
    let results := modifiers.map (fun m => collectResult m (run m))
    if (results.filter (fun r => r.success)).length = 0 then
      Except.error "NameError: image_bytes_list is not defined"
    else
      Except.ok results

/-- The exception-free task runner: each submitted task simply executes
`_generate_single_image` with its modifier. -/
def pureRun (clientOk : Bool) (b64 : String → Option (List Nat))
    (api : ApiCall → ApiOutcome) (prompt_text : String)
    (input_images_data : List InputImage) :
    String × String → TaskOutcome :=
  fun m => TaskOutcome.value
    (generate_single_image clientOk b64 api prompt_text input_images_data
      (some m))

/-- Observable outcome of the public entry point: a list of per-variant
dictionaries, a single dictionary, `None`, or an exception propagating
out of the call uncaught (the entry point itself has no handler around
the fan-out helper). -/
inductive TopResult where
  | list (rs : List GenResult)
  | single (r : GenResult)
  | noneResult
  | raised (msg : String)
deriving DecidableEq, Repr

/-- `generate_image_with_multiple_inputs(prompt_text, input_images_data,
parallel)` (lines 43-68): guards on the client and on a non-blank prompt,
then dispatches to the fan-out helper when `parallel` is set and the
module-level modifier catalog is non-empty, and to the single-image path
otherwise.  An exception raised by the fan-out helper propagates to the
caller uncaught. -/
def generate_image_with_multiple_inputs (clientOk : Bool)
    (b64 : String → Option (List Nat)) (api : ApiCall → ApiOutcome)
    (run : String × String → TaskOutcome)
    (prompt_text : String) (input_images_data : List InputImage)
    (modifiers : List (String × String)) (parallel : Bool) : TopResult :=
  if !clientOk then TopResult.noneResult
  else if pyBlank prompt_text then TopResult.noneResult
  else if parallel && !modifiers.isEmpty then
    match generate_multiple_variations clientOk b64 api run
        prompt_text input_images_data modifiers with
    | Except.ok rs => TopResult.list rs
    | Except.error e => TopResult.raised e
  else
    match generate_single_image clientOk b64 api prompt_text
        input_images_data none with
    | some r => TopResult.single r
    | none => TopResult.noneResult

/-! ## Upload task with retry (`zoho_adapter.py`, `upload_file_to_workdrive`) -/

/-- One attempt's outcome at the HTTP boundary: a response with a status
code, together with whether its body's first error title equals
`MORE_THAN_MAX_OCCURANCE`, or a raised `requests` exception. -/
inductive UploadResp where
  | status (code : Nat) (moreThanMax : Bool)
  | reqExn (msg : String)
deriving DecidableEq, Repr

/-- The in-loop retry trigger of `upload_file_to_workdrive` (lines
469-471): HTTP 429, or HTTP 500 whose body reports
`MORE_THAN_MAX_OCCURANCE`. -/
def retryableResp (code : Nat) (mtm : Bool) : Bool :=
  code == 429 || (code == 500 && mtm)

/-- The retry loop of `upload_file_to_workdrive` (lines 441-507).  State:
remaining loop fuel, `retry_count`, `retry_delay`, and the reversed list
of sleeps performed so far.  `resp k` is the response received by the
attempt made with `retry_count = k`; `jit k` is the jitter drawn on the
retry taken from that attempt.  Returns `some k` when the upload broke
out of the loop successfully on attempt `k`, `none` when the function
returned `None`, paired with the chronological list of sleep durations.
The fuel argument only bounds the recursion; `maxRetries + 1` is always
sufficient since `retry_count` grows by one per iteration and retries
require `retry_count < maxRetries`. -/
def uploadLoop (resp : Nat → UploadResp) (jit : Nat → ℚ)
    (maxRetries : Nat) :
    Nat → Nat → ℚ → List ℚ → Option Nat × List ℚ
  | 0, _, _, delays => (none, delays.reverse)
  | fuel + 1, rc, delay, delays =>
    match resp rc with
    | UploadResp.reqExn _ => (none, delays.reverse)
    | UploadResp.status code mtm =>
      if retryableResp code mtm && decide (rc < maxRetries) then
        let d := min 60 (delay * 2 * jit rc)
        uploadLoop resp jit maxRetries fuel (rc + 1) d (d :: delays)
      else if 400 ≤ code ∧ code < 600 then
        if code == 429 && decide (rc < maxRetries) then
          uploadLoop resp jit maxRetries fuel (rc + 1)
            (min 60 (delay * 2)) (delay :: delays)
        else (none, delays.reverse)
      else (some rc, delays.reverse)

/-- `upload_file_to_workdrive` restricted to its retry behaviour: initial
`retry_count = 0`, initial `retry_delay = 1`, loop condition
`retry_count <= max_retries`. -/
def upload_file_to_workdrive (resp : Nat → UploadResp) (jit : Nat → ℚ)
    (maxRetries : Nat) : Option Nat × List ℚ :=
  uploadLoop resp jit maxRetries (maxRetries + 1) 0 1 []

/-- The sleep sequence produced by an all-rate-limited run: `n` remaining
retries starting at retry index `k` with current delay `d`; each retry
sleeps `min 60 (d * 2 * jit k)` and carries that value forward. -/
def delaySeqAux (jit : Nat → ℚ) : Nat → Nat → ℚ → List ℚ
  | _, 0, _ => []
  | k, n + 1, d =>
    let d2 := min 60 (d * 2 * jit k)
    d2 :: delaySeqAux jit (k + 1) n d2

/-! ## Image optimizer (`zoho_adapter.py`, `optimize_image_for_upload`) -/

/-- Abstract PIL image: its reported color mode plus an opaque content
identifier. -/
structure PILImage where
  mode : String
  content : Nat
deriving DecidableEq, Repr

/-- The PIL operations used by the optimizer, as oracles; each may raise
(modelled as `none`). -/
structure PILOps where
  open_img : List Nat → Option PILImage
  pasteOnWhite : PILImage → Option PILImage
  convertRGB : PILImage → Option PILImage
  resize : PILImage → Option PILImage
  saveJPEG : PILImage → Option (List Nat)

/-- The color-mode normalization branch of `optimize_image_for_upload`:
an `RGBA` image is composited over a white background, any other
non-`RGB` mode is converted to `RGB`, an `RGB` image passes through. -/
def normalizeMode (op : PILOps) (img : PILImage) : Option PILImage :=
  if img.mode = "RGBA" then op.pasteOnWhite img
  else if img.mode ≠ "RGB" then op.convertRGB img
  else some img

/-- The body of the optimizer's `try` block: decode, normalize the color
mode, resize to the fixed target, re-encode as JPEG.  `none` when any
step raises. -/
def optimizeBody (op : PILOps) (data : List Nat) : Option (List Nat) :=
  match op.open_img data with
  | none => none
  | some img =>
    match normalizeMode op img with
    | none => none
    | some img2 =>
      match op.resize img2 with
      | none => none
      | some img3 => op.saveJPEG img3

/-- `optimize_image_for_upload(image_data)`: returns the optimized bytes
with original and new sizes in KB; on any step failure returns the
original bytes with both reported sizes equal to the original size. -/
def optimize_image_for_upload (op : PILOps) (data : List Nat) :
    List Nat × ℚ × ℚ :=
  match optimizeBody op data with
  | some out =>
      (out, (data.length : ℚ) / 1024, (out.length : ℚ) / 1024)
  | none =>
      (data, (data.length : ℚ) / 1024, (data.length : ℚ) / 1024)

/-! ## Batch upload coordinator
(`zoho_adapter.py`, `batch_upload_designs_to_workdrive`) -/

/-- One design dictionary handed to the batch uploader: optional
`style`, `url` and `b64_json` keys. -/
structure Design where
  style : Option String
  url : Option String
  b64_json : Option String
deriving DecidableEq, Repr

/-- The metadata dictionary returned by a successful
`upload_file_to_workdrive` call: the WorkDrive resource id and the
direct link built from it. -/
structure UploadMeta where
  id : String
  url : String
deriving DecidableEq, Repr

/-- One entry of the batch run's `successful_uploads` list. -/
structure UploadEntry where
  name : String
  url : String
  id : String
  style : String
deriving DecidableEq, Repr

/-- External collaborators of the batch uploader, as oracles:
folder lookup, token acquisition, URL download, base64 decoding, the PIL
operations, and the per-file upload (folder id, token and retry budget
are fixed for the batch, so the upload oracle is keyed by bytes and
filename). -/
structure BatchEnv where
  folder : Option String
  token : Option String
  download : String → Option (List Nat)
  b64decode : String → Option (List Nat)
  pil : PILOps
  upload : List Nat → String → Option UploadMeta

/-- Image-data acquisition for one design (lines 788-806): a truthy
`url` is downloaded, otherwise a truthy `b64_json` is decoded; a
download/decode failure, a missing source, or empty bytes all skip the
design. -/
def getImageData (env : BatchEnv) (d : Design) : Option (List Nat) :=
  if truthyStr d.url then
    match env.download (d.url.getD "") with
    | none => none
    | some bytes => if bytes.isEmpty then none else some bytes
  else if truthyStr d.b64_json then
    match env.b64decode (d.b64_json.getD "") with
    | none => none
    | some bytes => if bytes.isEmpty then none else some bytes
  else none

/-- Processing of one design inside the batch loop: style label (with
positional default), filename, image acquisition, optimization, upload;
`none` when the design is skipped or its upload fails. -/
def processItem (env : BatchEnv) (timestamp : String) (idx : Nat)
    (d : Design) : Option UploadEntry :=
  let design_style :=
    match d.style with
    | some s => s
    | none => "variation_" ++ toString idx
  let filename := "design_" ++ design_style ++ "_" ++ timestamp ++ ".png"
  match getImageData env d with
  | none => none
  | some image_data =>
    let opt := optimize_image_for_upload env.pil image_data
    match env.upload opt.1 filename with
    | none => none
    | some meta => some ⟨filename, meta.url, meta.id, design_style⟩

/-- Accumulator update of the batch loop: a skipped or failed design
leaves `successful_uploads` unchanged, a successful upload appends its
entry. -/
def batchAcc (acc : List UploadEntry) (r : Option UploadEntry) :
    List UploadEntry :=
  match r with
  | none => acc
  | some e => acc ++ [e]

/-- The `for idx, selected_design in enumerate(designs)` loop: failures
skip to the next design, successes are appended to the accumulator. -/
def batchLoop (env : BatchEnv) (timestamp : String) :
    Nat → List Design → List UploadEntry → List UploadEntry
  | _, [], acc => acc
  | idx, d :: rest, acc =>
    batchLoop env timestamp (idx + 1) rest
      (batchAcc acc (processItem env timestamp idx d))

/-- The batch report: the returned tuple
`(success_flag, successful_uploads, message)`. -/
structure BatchReport where
  success : Bool
  uploads : List UploadEntry
  message : String
deriving DecidableEq, Repr

/-- `batch_upload_designs_to_workdrive(order_id, designs, ...)` (lines
739-861): resolves the destination folder and a shared token, processes
each design sequentially, then reports failure when no design uploaded,
and success otherwise — with a degraded message when the note-creation
collaborator (`note`) fails. -/
def batch_upload_designs_to_workdrive (env : BatchEnv)
    (note : List UploadEntry → Bool) (timestamp : String)
    (designs : List Design) : BatchReport :=
  match env.folder with
  | none =>
    ⟨false, [], "Failed to get Miscellaneous Folder ID from Zoho CRM."⟩
  | some _ =>
    match env.token with
    | none => ⟨false, [], "Failed to get Zoho access token for uploads."⟩
    | some _ =>
      let ups := batchLoop env timestamp 0 designs []
      if ups.isEmpty then
        ⟨false, [], "No designs were successfully uploaded to Zoho WorkDrive."⟩
      else if note ups then
        ⟨true, ups,
          "Successfully uploaded " ++ toString ups.length ++
            " designs to Zoho WorkDrive."⟩
      else
        ⟨true, ups,
          "Designs uploaded successfully, but failed to create a note in Zoho CRM."⟩

/-! ## General lemmas -/

/-- A `filterMap` over a list on which the function always succeeds
keeps every element. -/
theorem length_filterMap_of_forall_isSome {α β : Type} (f : α → Option β)
    (l : List α) (h : ∀ x ∈ l, (f x).isSome = true) :
    (l.filterMap f).length = l.length := by
  induction l with
  | nil => rfl
  | cons a l ih =>
    obtain ⟨b, hb⟩ := Option.isSome_iff_exists.mp (h a (by simp))
    have ih' := ih (fun x hx => h x (by simp [hx]))
    simp [List.filterMap_cons, hb, ih']

/-! ## Claims about the generation fan-out -/

/-- C8: the choice between the text-to-image endpoint and the
image-conditioned edit endpoint depends only on the count of
successfully decoded reference images — zero decoded images select
`images.generate`, one or more select `images.edit` with the full
decoded list — and the task's result depends only on the one selected
endpoint call, so no fallback after an endpoint error is possible. -/
theorem C8_endpoint_selection (clientOk : Bool)
    (b64 : String → Option (List Nat)) (api : ApiCall → ApiOutcome)
    (prompt_text : String) (imgs : List InputImage)
    (m : Option (String × String))
    (hc : clientOk = true) (hp : pyBlank prompt_text = false) :
    (decodeImages b64 imgs = [] →
      generate_single_image clientOk b64 api prompt_text imgs m
        = handleResponse m (api ApiCall.generate)) ∧
    (decodeImages b64 imgs ≠ [] →
      generate_single_image clientOk b64 api prompt_text imgs m
        = handleResponse m (api (ApiCall.edit (decodeImages b64 imgs)))) ∧
    (∀ api2 : ApiCall → ApiOutcome,
      api2 (apiCallOf b64 imgs) = api (apiCallOf b64 imgs) →
      generate_single_image clientOk b64 api2 prompt_text imgs m
        = generate_single_image clientOk b64 api prompt_text imgs m) := by
  subst hc
  refine ⟨fun h => ?_, fun h => ?_, fun api2 hagree => ?_⟩
  · simp [generate_single_image, hp, apiCallOf, h]
  · simp [generate_single_image, hp, apiCallOf,
      List.isEmpty_iff, h]
  · simp [generate_single_image, hp, hagree]

/-- Witness for `C8_endpoint_selection`: with no input images the call
goes through the generate endpoint. -/
theorem C8_endpoint_selection_witness :
    generate_single_image true (fun _ => some [0])
      (fun _ => ApiOutcome.ok [⟨some "https://img.example/a.png", none⟩])
      "Eagle coin design" [] none
      = handleResponse none
          ((fun _ => ApiOutcome.ok [⟨some "https://img.example/a.png", none⟩])
            ApiCall.generate) :=
  (C8_endpoint_selection true (fun _ => some [0])
    (fun _ => ApiOutcome.ok [⟨some "https://img.example/a.png", none⟩])
    "Eagle coin design" [] none rfl (by rfl)).1 rfl

/-- C9: each reference image is split on its first comma and the
remainder base64-decoded; a list with exactly one malformed entry among
otherwise decodable ones loses only that entry: the decoded list is the
concatenation of the decodings around it, its length is N-1 for an
N-entry input, and the provider call proceeds with exactly those
decoded images. -/
theorem C9_decode_skip (b64 : String → Option (List Nat))
    (xs ys : List InputImage) (bad : InputImage)
    (hxs : ∀ x ∈ xs, (decodeOne b64 x).isSome = true)
    (hys : ∀ y ∈ ys, (decodeOne b64 y).isSome = true)
    (hbad : decodeOne b64 bad = none) :
    decodeImages b64 (xs ++ bad :: ys)
      = decodeImages b64 xs ++ decodeImages b64 ys ∧
    (decodeImages b64 (xs ++ bad :: ys)).length
      = (xs ++ bad :: ys).length - 1 ∧
    (xs ++ ys ≠ [] →
      apiCallOf b64 (xs ++ bad :: ys)
        = ApiCall.edit (decodeImages b64 xs ++ decodeImages b64 ys)) := by
  have hsplit : decodeImages b64 (xs ++ bad :: ys)
      = decodeImages b64 xs ++ decodeImages b64 ys := by
    simp [decodeImages, List.filterMap_append, List.filterMap_cons, hbad]
  have hlx : (decodeImages b64 xs).length = xs.length :=
    length_filterMap_of_forall_isSome (decodeOne b64) xs hxs
  have hly : (decodeImages b64 ys).length = ys.length :=
    length_filterMap_of_forall_isSome (decodeOne b64) ys hys
  have hlen : (decodeImages b64 (xs ++ bad :: ys)).length
      = (xs ++ bad :: ys).length - 1 := by
    rw [hsplit]
    simp only [List.length_append, List.length_cons, hlx, hly]
    omega
  refine ⟨hsplit, hlen, fun hne => ?_⟩
  have hpos : 0 < (decodeImages b64 xs ++ decodeImages b64 ys).length := by
    rw [List.length_append, hlx, hly]
    rcases xs with _ | ⟨x, xs'⟩
    · rcases ys with _ | ⟨y, ys'⟩
      · exact absurd rfl hne
      · simp
    · simp
  have hemp : decodeImages b64 xs ++ decodeImages b64 ys ≠ [] := by
    intro h0
    rw [h0] at hpos
    simp at hpos
  simp [apiCallOf, hsplit, List.isEmpty_iff, hemp]

/-- Witness for `C9_decode_skip`: two valid entries around one entry
with no comma in its data URI yield two decoded images. -/
theorem C9_decode_skip_witness :
    (decodeImages (fun s => if s = "AAAA" then some [0] else none)
      ([(⟨"data:image/png;base64,AAAA", "Logo"⟩ : InputImage)]
        ++ (⟨"garbage-no-comma", "Reference"⟩ : InputImage)
          :: [(⟨"data:image/png;base64,AAAA", "Back"⟩ : InputImage)])).length
      = ([(⟨"data:image/png;base64,AAAA", "Logo"⟩ : InputImage)]
        ++ (⟨"garbage-no-comma", "Reference"⟩ : InputImage)
          :: [(⟨"data:image/png;base64,AAAA", "Back"⟩ : InputImage)]).length - 1 :=
  (C9_decode_skip (fun s => if s = "AAAA" then some [0] else none)
    [⟨"data:image/png;base64,AAAA", "Logo"⟩]
    [⟨"data:image/png;base64,AAAA", "Back"⟩]
    ⟨"garbage-no-comma", "Reference"⟩
    (by intro x hx; simp at hx; subst hx; rfl)
    (by intro y hy; simp at hy; subst hy; rfl)
    (by rfl)).2.1

/-- C4: the claim describes the code's evident intent (lines 356-371
catch at the task boundary and append one failure record per task, and
the function's docstring promises a returned list of per-variation
dictionaries), but the code breaks it: on a run where every task fails
— here two tasks, one raising an exception and one whose generation
returns a failure record — the zero-success diagnostics block reads the
undefined `image_bytes_list` at line 405 and the function raises an
uncaught `NameError` instead of returning the two collected failure
records. -/
theorem C4_name_error_on_all_failures :
    generate_multiple_variations true (fun _ => some [0])
      (fun _ => ApiOutcome.connErr "connection reset")
      (fun m => if m.1 = "Modern Minimalist"
        then TaskOutcome.exn "boom"
        else TaskOutcome.value (generate_single_image true
          (fun _ => some [0]) (fun _ => ApiOutcome.connErr "connection reset")
          "Eagle coin design" [] (some m)))
      "Eagle coin design" []
      [("Heritage", "h-text"), ("Modern Minimalist", "m-text")]
      = Except.error "NameError: image_bytes_list is not defined" := by rfl

/-- C5 counterexample: a provider response whose only data object
carries neither a URL nor an inline base64 payload makes the generation
task return `None` — it does not return a `Failure` result with error
kind `"empty_response"` (no such record exists in the code). -/
theorem C5_counterexample :
    generate_single_image true (fun _ => some [0])
      (fun _ => ApiOutcome.ok [⟨none, none⟩])
      "Eagle coin design" [] none = none := by rfl

/-- C5 amended: a generation task whose provider response contains
neither a remote URL nor an inline base64 payload (including an empty
data list) returns `None` rather than any result record; the fan-out
collection loop then converts that `None` into a failure record with
error message `"Generation returned None"`. -/
theorem C5_empty_response (clientOk : Bool)
    (b64 : String → Option (List Nat)) (api : ApiCall → ApiOutcome)
    (prompt_text : String) (imgs : List InputImage)
    (m0 : Option (String × String)) (data : List RespItem)
    (hc : clientOk = true) (hp : pyBlank prompt_text = false)
    (hapi : api (apiCallOf b64 imgs) = ApiOutcome.ok data)
    (hempty : ∀ obj, data.head? = some obj →
      truthyStr obj.url = false ∧ truthyStr obj.b64_json = false) :
    generate_single_image clientOk b64 api prompt_text imgs m0 = none ∧
    (∀ m : String × String,
      collectResult m (TaskOutcome.value
        (generate_single_image clientOk b64 api prompt_text imgs (some m)))
      = ⟨m.1, false, some "Generation returned None", none, none⟩) := by
  subst hc
  have hnone : ∀ mm : Option (String × String),
      generate_single_image true b64 api prompt_text imgs mm = none := by
    intro mm
    rcases data with _ | ⟨obj, rest⟩
    · simp [generate_single_image, hp, hapi, handleResponse]
    · obtain ⟨hu, hb⟩ := hempty obj rfl
      simp [generate_single_image, hp, hapi, handleResponse, hu, hb]
  exact ⟨hnone m0, fun m => by rw [hnone (some m)]; rfl⟩

/-- Witness for `C5_empty_response`: concrete run with an empty-fields
data object. -/
theorem C5_empty_response_witness :
    generate_single_image true (fun _ => some [0])
      (fun _ => ApiOutcome.ok [⟨none, some ""⟩])
      "coin with stars" [] (some ("Modern", "m-text")) = none :=
  (C5_empty_response true (fun _ => some [0])
    (fun _ => ApiOutcome.ok [⟨none, some ""⟩])
    "coin with stars" [] (some ("Modern", "m-text")) [⟨none, some ""⟩]
    rfl (by rfl) rfl
    (by intro obj hobj; simp at hobj; subst hobj; exact ⟨rfl, rfl⟩)).1

/-- C3 counterexample: with an empty catalog and a fallback single
generation that returns `None` (here: a provider response with an empty
data list), the fan-out executor returns the empty list — zero results,
not `max(1, 0) = 1`. -/
theorem C3_counterexample :
    generate_multiple_variations true (fun _ => some [0])
      (fun _ => ApiOutcome.ok []) (fun _ => TaskOutcome.value none)
      "Eagle coin design" [] [] = Except.ok [] := by rfl

/-- C3 amended: for a non-empty catalog of size C the fan-out executor
returns exactly C results whenever it returns a list at all; it does
return one exactly when at least one collected record is a success, and
on an all-failure run it instead raises an uncaught `NameError` (line
405 reads a variable undefined in its scope) and returns nothing.  For
an empty catalog it returns a one-element list when the fallback single
generation returns a result, and the empty list when that fallback
returns `None`. -/
theorem C3_result_count (clientOk : Bool)
    (b64 : String → Option (List Nat)) (api : ApiCall → ApiOutcome)
    (run : String × String → TaskOutcome) (prompt_text : String)
    (imgs : List InputImage) (modifiers : List (String × String)) :
    (modifiers ≠ [] →
      (∀ rs, generate_multiple_variations clientOk b64 api run prompt_text
          imgs modifiers = Except.ok rs → rs.length = modifiers.length) ∧
      ((∃ m ∈ modifiers, (collectResult m (run m)).success = true) →
        generate_multiple_variations clientOk b64 api run prompt_text imgs
          modifiers
          = Except.ok (modifiers.map (fun m => collectResult m (run m)))) ∧
      ((∀ m ∈ modifiers, (collectResult m (run m)).success = false) →
        generate_multiple_variations clientOk b64 api run prompt_text imgs
          modifiers
          = Except.error "NameError: image_bytes_list is not defined")) ∧
    (modifiers = [] →
      (∀ r, generate_single_image clientOk b64 api prompt_text imgs none
          = some r →
        generate_multiple_variations clientOk b64 api run prompt_text imgs
          modifiers = Except.ok [r]) ∧
      (generate_single_image clientOk b64 api prompt_text imgs none = none →
        generate_multiple_variations clientOk b64 api run prompt_text imgs
          modifiers = Except.ok [])) := by
  constructor
  · intro hm
    have hne : modifiers.isEmpty = false := by
      rcases modifiers with _ | ⟨a, l⟩
      · exact absurd rfl hm
      · rfl
    refine ⟨fun rs hrs => ?_, fun hex => ?_, fun hall => ?_⟩
    · by_cases hz : ((modifiers.map (fun m => collectResult m (run m))).filter
          (fun r => r.success)).length = 0
      · simp [generate_multiple_variations, hne, hz] at hrs
      · simp [generate_multiple_variations, hne, hz] at hrs
        rw [← hrs, List.length_map]
    · obtain ⟨m, hmem, hs⟩ := hex
      have hmemf : collectResult m (run m)
          ∈ (modifiers.map (fun m => collectResult m (run m))).filter
              (fun r => r.success) :=
        List.mem_filter.mpr ⟨List.mem_map.mpr ⟨m, hmem, rfl⟩, hs⟩
      have hz : ((modifiers.map (fun m => collectResult m (run m))).filter
          (fun r => r.success)).length ≠ 0 := by
        intro h0
        rw [List.length_eq_zero] at h0
        rw [h0] at hmemf
        simp at hmemf
      simp [generate_multiple_variations, hne, hz]
    · have hz : ((modifiers.map (fun m => collectResult m (run m))).filter
          (fun r => r.success)).length = 0 := by
        rw [List.length_eq_zero, List.filter_eq_nil_iff]
        intro r hr
        obtain ⟨m, hmem, hrm⟩ := List.mem_map.mp hr
        rw [← hrm]
        simp [hall m hmem]
      simp [generate_multiple_variations, hne, hz]
  · intro hm
    subst hm
    exact ⟨fun r hr => by simp [generate_multiple_variations, hr],
      fun hr => by simp [generate_multiple_variations, hr]⟩

/-- Witness for `C3_result_count`: a two-entry catalog in which both
tasks succeed returns exactly the two collected records. -/
theorem C3_result_count_witness :
    generate_multiple_variations true (fun _ => some [0])
      (fun _ => ApiOutcome.ok [⟨some "u", none⟩])
      (fun m => TaskOutcome.value (generate_single_image true
        (fun _ => some [0]) (fun _ => ApiOutcome.ok [⟨some "u", none⟩])
        "Eagle coin design" [] (some m)))
      "Eagle coin design" []
      [("Heritage", "h-text"), ("Modern", "m-text")]
      = Except.ok [⟨"Heritage", true, none, some "u", none⟩,
          ⟨"Modern", true, none, some "u", none⟩] := by
  have h := ((C3_result_count true (fun _ => some [0])
    (fun _ => ApiOutcome.ok [⟨some "u", none⟩])
    (fun m => TaskOutcome.value (generate_single_image true
      (fun _ => some [0]) (fun _ => ApiOutcome.ok [⟨some "u", none⟩])
      "Eagle coin design" [] (some m)))
    "Eagle coin design" []
    [("Heritage", "h-text"), ("Modern", "m-text")]).1 (by simp)).2.1
    ⟨("Heritage", "h-text"), by simp, by rfl⟩
  rw [h]
  rfl

/-- C10 counterexample: with `parallel=True` and an empty modifier
catalog the entry point returns a single result dictionary, not a list
— the list-shaped empty-catalog fallback inside the fan-out helper is
never reached from the entry point, which dispatches to the single-image
path whenever the catalog is empty. -/
theorem C10_counterexample :
    generate_image_with_multiple_inputs true (fun _ => some [0])
      (fun _ => ApiOutcome.ok [⟨some "https://img.example/out.png", none⟩])
      (fun _ => TaskOutcome.value none)
      "Eagle coin design" [] [] true
      = TopResult.single
          ⟨"Standard", true, none, some "https://img.example/out.png", none⟩ := by
  rfl

/-- C10 amended: provided the client is initialized and the trimmed
prompt is non-empty, the entry point dispatches to the fan-out helper
exactly when `parallel` is set and the catalog is non-empty, returning
a list when that helper returns one and propagating its uncaught
`NameError` when every variation failed; with `parallel=False` or an
empty catalog it never returns a list and never raises — it returns
the fallback single generation's dictionary, or `None` when that
generation returned `None`. -/
theorem C10_return_shape (clientOk : Bool)
    (b64 : String → Option (List Nat)) (api : ApiCall → ApiOutcome)
    (run : String × String → TaskOutcome) (prompt_text : String)
    (imgs : List InputImage) (modifiers : List (String × String))
    (parallel : Bool)
    (hc : clientOk = true) (hp : pyBlank prompt_text = false) :
    (parallel = true → modifiers ≠ [] →
      (∀ rs, generate_multiple_variations clientOk b64 api run prompt_text
          imgs modifiers = Except.ok rs →
        generate_image_with_multiple_inputs clientOk b64 api run prompt_text
          imgs modifiers parallel = TopResult.list rs) ∧
      (∀ e, generate_multiple_variations clientOk b64 api run prompt_text
          imgs modifiers = Except.error e →
        generate_image_with_multiple_inputs clientOk b64 api run prompt_text
          imgs modifiers parallel = TopResult.raised e)) ∧
    (parallel = false ∨ modifiers = [] →
      (∀ rs, generate_image_with_multiple_inputs clientOk b64 api run
          prompt_text imgs modifiers parallel ≠ TopResult.list rs) ∧
      (∀ e, generate_image_with_multiple_inputs clientOk b64 api run
          prompt_text imgs modifiers parallel ≠ TopResult.raised e) ∧
      (∀ r, generate_single_image clientOk b64 api prompt_text imgs none
          = some r →
        generate_image_with_multiple_inputs clientOk b64 api run prompt_text
          imgs modifiers parallel = TopResult.single r) ∧
      (generate_single_image clientOk b64 api prompt_text imgs none = none →
        generate_image_with_multiple_inputs clientOk b64 api run prompt_text
          imgs modifiers parallel = TopResult.noneResult)) := by
  subst hc
  constructor
  · intro hpar hm
    have hne : modifiers.isEmpty = false := by
      rcases modifiers with _ | ⟨a, l⟩
      · exact absurd rfl hm
      · rfl
    subst hpar
    constructor
    · intro rs hrs
      simp [generate_image_with_multiple_inputs, hp, hne, hrs]
    · intro e he
      simp [generate_image_with_multiple_inputs, hp, hne, he]
  · intro hcase
    have hcond : (parallel && !modifiers.isEmpty) = false := by
      rcases hcase with h | h
      · simp [h]
      · simp [h]
    refine ⟨fun rs => ?_, fun e => ?_, fun r hr => ?_, fun hr => ?_⟩
    · cases hg : generate_single_image true b64 api prompt_text imgs none <;>
        simp [generate_image_with_multiple_inputs, hp, hcond, hg]
    · cases hg : generate_single_image true b64 api prompt_text imgs none <;>
        simp [generate_image_with_multiple_inputs, hp, hcond, hg]
    · simp [generate_image_with_multiple_inputs, hp, hcond, hr]
    · simp [generate_image_with_multiple_inputs, hp, hcond, hr]

/-- Witness for `C10_return_shape`: with `parallel=False` and a
successful single generation the entry point returns a single dict. -/
theorem C10_return_shape_witness :
    generate_image_with_multiple_inputs true (fun _ => some [0])
      (fun _ => ApiOutcome.ok [⟨some "u", none⟩])
      (fun _ => TaskOutcome.value none) "Eagle coin design" []
      [("Heritage", "h-text")] false
      = TopResult.single ⟨"Standard", true, none, some "u", none⟩ :=
  ((C10_return_shape true (fun _ => some [0])
    (fun _ => ApiOutcome.ok [⟨some "u", none⟩])
    (fun _ => TaskOutcome.value none) "Eagle coin design" []
    [("Heritage", "h-text")] false rfl (by rfl)).2 (Or.inl rfl)).2.2.1
    ⟨"Standard", true, none, some "u", none⟩ (by rfl)

/-- C1 counterexample: a request with an empty base prompt, two valid
reference images, an empty catalog and `parallel=True` is rejected
before dispatch — the entry point returns `None`, not a one-element
list of a `"Standard"`-labeled result. -/
theorem C1_counterexample :
    generate_image_with_multiple_inputs true (fun _ => some [0])
      (fun _ => ApiOutcome.ok [⟨some "https://img.example/out.png", none⟩])
      (fun _ => TaskOutcome.value none) ""
      [(⟨"data:image/png;base64,AAAA", "Initial design"⟩ : InputImage),
       (⟨"data:image/png;base64,BBBB", "Logo"⟩ : InputImage)]
      [] true = TopResult.noneResult := by rfl

/-- C1 amended: a request whose base prompt is blank after trimming is
rejected before dispatch regardless of how many reference images are
present; when the client is initialized and the trimmed prompt is
non-empty, a request with decodable reference images and an empty
catalog yields exactly one `"Standard"`-labeled result routed through
the image-edit endpoint with the full decoded image list. -/
theorem C1_prompt_guard (clientOk : Bool)
    (b64 : String → Option (List Nat)) (api : ApiCall → ApiOutcome)
    (run : String × String → TaskOutcome) (prompt_text : String)
    (imgs : List InputImage) (modifiers : List (String × String))
    (parallel : Bool) :
    (pyBlank prompt_text = true →
      generate_image_with_multiple_inputs clientOk b64 api run prompt_text
        imgs modifiers parallel = TopResult.noneResult) ∧
    (clientOk = true → pyBlank prompt_text = false → modifiers = [] →
      ∀ ds u, decodeImages b64 imgs = ds → ds ≠ [] →
        truthyStr (some u) = true →
        api (ApiCall.edit ds) = ApiOutcome.ok [⟨some u, none⟩] →
        generate_image_with_multiple_inputs clientOk b64 api run prompt_text
            imgs modifiers parallel
          = TopResult.single ⟨"Standard", true, none, some u, none⟩) := by
  constructor
  · intro hblank
    cases clientOk
    · rfl
    · simp [generate_image_with_multiple_inputs, hblank]
  · intro hc hp hm ds u hds hdne hu hapi
    subst hc
    subst hm
    have hne : ds.isEmpty = false := by
      rcases ds with _ | ⟨a, l⟩
      · exact absurd rfl hdne
      · rfl
    have hcall : apiCallOf b64 imgs = ApiCall.edit ds := by
      simp [apiCallOf, hds, hne]
    simp [generate_image_with_multiple_inputs, hp, generate_single_image,
      hcall, hapi, handleResponse, hu, styleName]

/-- Witness for `C1_prompt_guard`: with a non-empty prompt, two
decodable images and an empty catalog, exactly one Standard result
comes back through the edit endpoint. -/
theorem C1_prompt_guard_witness :
    generate_image_with_multiple_inputs true (fun _ => some [7])
      (fun c => if c = ApiCall.edit [[7], [7]]
        then ApiOutcome.ok [⟨some "https://img.example/out.png", none⟩]
        else ApiOutcome.otherErr "wrong endpoint")
      (fun _ => TaskOutcome.value none) "Eagle coin design"
      [(⟨"data:image/png;base64,AAAA", "Initial design"⟩ : InputImage),
       (⟨"data:image/png;base64,BBBB", "Logo"⟩ : InputImage)]
      [] true
      = TopResult.single
          ⟨"Standard", true, none, some "https://img.example/out.png", none⟩ :=
  (C1_prompt_guard true (fun _ => some [7])
    (fun c => if c = ApiCall.edit [[7], [7]]
      then ApiOutcome.ok [⟨some "https://img.example/out.png", none⟩]
      else ApiOutcome.otherErr "wrong endpoint")
    (fun _ => TaskOutcome.value none) "Eagle coin design"
    [(⟨"data:image/png;base64,AAAA", "Initial design"⟩ : InputImage),
     (⟨"data:image/png;base64,BBBB", "Logo"⟩ : InputImage)]
    [] true).2 rfl (by rfl) rfl [[7], [7]] "https://img.example/out.png"
    (by rfl) (by simp) (by rfl) (by rfl)

/-! ## Claims about the upload retry loop -/

/-- On an all-rate-limited run, the loop performs one retry per
remaining budget unit, sleeping the `delaySeqAux` sequence, and then
returns `None`. -/
theorem uploadLoop_rateLimited (resp : Nat → UploadResp) (jit : Nat → ℚ)
    (R : Nat) (hresp : ∀ k, resp k = UploadResp.status 429 false) :
    ∀ (n k : Nat) (d : ℚ) (acc : List ℚ), k + n = R →
      uploadLoop resp jit R (n + 1) k d acc
        = (none, acc.reverse ++ delaySeqAux jit k n d) := by
  intro n
  induction n with
  | zero =>
    intro k d acc hk
    have hkR : ¬ k < R := by omega
    simp [uploadLoop, hresp k, retryableResp, hkR, delaySeqAux]
  | succ n ih =>
    intro k d acc hk
    have hkR : k < R := by omega
    have hcond : (retryableResp 429 false && decide (k < R)) = true := by
      simp [retryableResp, hkR]
    have ih' := ih (k + 1) (min 60 (d * 2 * jit k))
      (min 60 (d * 2 * jit k) :: acc) (by omega)
    have hstep : uploadLoop resp jit R (n + 1 + 1) k d acc
        = uploadLoop resp jit R (n + 1) (k + 1) (min 60 (d * 2 * jit k))
            (min 60 (d * 2 * jit k) :: acc) := by
      conv_lhs => rw [uploadLoop]
      rw [hresp k]
      simp only [hcond, if_true]
    rw [hstep, ih']
    simp [delaySeqAux, List.append_assoc]

/-- Every member of the delay sequence respects the 60-unit cap. -/
theorem delaySeqAux_le_60 (jit : Nat → ℚ) :
    ∀ (n k : Nat) (d : ℚ), ∀ x ∈ delaySeqAux jit k n d, x ≤ 60 := by
  intro n
  induction n with
  | zero => intro k d x hx; simp [delaySeqAux] at hx
  | succ n ih =>
    intro k d x hx
    simp only [delaySeqAux, List.mem_cons] at hx
    rcases hx with hx | hx
    · subst hx; exact min_le_left _ _
    · exact ih (k + 1) _ x hx

/-- With jitter bounded below by 1/2, every member of the delay
sequence started from a positive delay is positive. -/
theorem delaySeqAux_pos (jit : Nat → ℚ) (hj : ∀ i, 1/2 ≤ jit i) :
    ∀ (n k : Nat) (d : ℚ), 0 < d → ∀ x ∈ delaySeqAux jit k n d, 0 < x := by
  intro n
  induction n with
  | zero => intro k d _ x hx; simp [delaySeqAux] at hx
  | succ n ih =>
    intro k d hd x hx
    have hjk : (0 : ℚ) < jit k := lt_of_lt_of_le (by norm_num) (hj k)
    have hd2 : (0 : ℚ) < min 60 (d * 2 * jit k) := by
      apply lt_min
      · norm_num
      · positivity
    simp only [delaySeqAux, List.mem_cons] at hx
    rcases hx with hx | hx
    · subst hx; exact hd2
    · exact ih (k + 1) _ hd2 x hx

/-- The delay sequence has exactly one entry per remaining retry. -/
theorem delaySeqAux_length (jit : Nat → ℚ) :
    ∀ (n k : Nat) (d : ℚ), (delaySeqAux jit k n d).length = n := by
  intro n
  induction n with
  | zero => intro k d; rfl
  | succ n ih => intro k d; simp [delaySeqAux, ih]

/-- The first delay of the sequence. -/
theorem delaySeqAux_head (jit : Nat → ℚ) (n k : Nat) (d : ℚ)
    (hn : 0 < n) :
    (delaySeqAux jit k n d)[0]? = some (min 60 (d * 2 * jit k)) := by
  rcases n with _ | n
  · omega
  · simp [delaySeqAux]

/-- Each delay after the first is the previous one times 2 times the
jitter drawn for it, capped at 60. -/
theorem delaySeqAux_step (jit : Nat → ℚ) :
    ∀ (n k : Nat) (d : ℚ) (i : Nat) (x : ℚ), i + 1 < n →
      (delaySeqAux jit k n d)[i]? = some x →
      (delaySeqAux jit k n d)[i + 1]?
        = some (min 60 (x * 2 * jit (k + i + 1))) := by
  intro n
  induction n with
  | zero => intro k d i x hi; omega
  | succ n ih =>
    intro k d i x hi hx
    rcases i with _ | i
    · rcases n with _ | n
      · omega
      · simp only [delaySeqAux, List.getElem?_cons_zero,
          Option.some.injEq] at hx
        simp only [delaySeqAux, List.getElem?_cons_succ,
          List.getElem?_cons_zero]
        rw [← hx]
    · simp only [delaySeqAux, List.getElem?_cons_succ] at hx ⊢
      have hstep := ih (k + 1) (min 60 (d * 2 * jit k)) i x (by omega) hx
      rw [hstep]
      have harg : k + 1 + i + 1 = k + (i + 1) + 1 := by omega
      rw [harg]

/-- C2: an upload call with `maxRetries = R` whose every attempt
receives a rate-limit response performs exactly `R` retries and then
reports failure as a returned value (`None`); the first retry delay is
`min 60 (1*2*jitter 0)`, each later delay is the previous one times 2
times its jitter capped at 60, the delay sequence is non-decreasing and
bounded by 60; and a non-retryable 4xx response other than rate-limit
fails immediately with no retry and no sleep. -/
theorem C2_upload_retry (R : Nat) (resp : Nat → UploadResp)
    (jit : Nat → ℚ) (hj : ∀ k, 1/2 ≤ jit k ∧ jit k ≤ 3/2) :
    ((∀ k, resp k = UploadResp.status 429 false) →
      (upload_file_to_workdrive resp jit R).1 = none ∧
      (upload_file_to_workdrive resp jit R).2.length = R ∧
      (0 < R → (upload_file_to_workdrive resp jit R).2[0]?
        = some (min 60 (1 * 2 * jit 0))) ∧
      (∀ (i : Nat) (x : ℚ), i + 1 < R →
        (upload_file_to_workdrive resp jit R).2[i]? = some x →
        (upload_file_to_workdrive resp jit R).2[i + 1]?
          = some (min 60 (x * 2 * jit (i + 1)))) ∧
      (∀ (i : Nat) (x y : ℚ),
        (upload_file_to_workdrive resp jit R).2[i]? = some x →
        (upload_file_to_workdrive resp jit R).2[i + 1]? = some y →
        x ≤ y) ∧
      (∀ x ∈ (upload_file_to_workdrive resp jit R).2, x ≤ 60)) ∧
    (∀ code mtm, 400 ≤ code → code < 500 → code ≠ 429 →
      resp 0 = UploadResp.status code mtm →
      upload_file_to_workdrive resp jit R = (none, [])) := by
  constructor
  · intro hresp
    have hrun : upload_file_to_workdrive resp jit R
        = (none, delaySeqAux jit 0 R 1) := by
      have := uploadLoop_rateLimited resp jit R hresp R 0 1 [] (by omega)
      simpa [upload_file_to_workdrive] using this
    rw [hrun]
    refine ⟨rfl, delaySeqAux_length jit R 0 1, ?_, ?_, ?_, ?_⟩
    · intro hR
      exact delaySeqAux_head jit R 0 1 hR
    · intro i x hi hx
      simpa using delaySeqAux_step jit R 0 1 i x hi hx
    · intro i x y hx hy
      have hmemx : x ∈ delaySeqAux jit 0 R 1 := List.getElem?_mem hx
      have hxpos : 0 < x :=
        delaySeqAux_pos jit (fun i => (hj i).1) R 0 1 (by norm_num) x hmemx
      have hx60 : x ≤ 60 := delaySeqAux_le_60 jit R 0 1 x hmemx
      have hi : i + 1 < R := by
        have := List.getElem?_eq_some.mp hy
        rcases this with ⟨h, _⟩
        rwa [delaySeqAux_length jit R 0 1] at h
      have hstep := delaySeqAux_step jit R 0 1 i x hi hx
      simp only [Nat.zero_add] at hstep
      rw [hstep] at hy
      have hyeq : y = min 60 (x * 2 * jit (i + 1)) := by
        exact (Option.some.injEq _ _ ▸ hy.symm :
          y = min 60 (x * 2 * jit (i + 1)))
      subst hyeq
      apply le_min hx60
      have hjge : (1 : ℚ) ≤ 2 * jit (i + 1) := by
        have := (hj (i + 1)).1
        linarith
      calc x = x * 1 := by ring
        _ ≤ x * (2 * jit (i + 1)) :=
            mul_le_mul_of_nonneg_left hjge (le_of_lt hxpos)
        _ = x * 2 * jit (i + 1) := by ring
    · exact delaySeqAux_le_60 jit R 0 1
  · intro code mtm hge hlt hne hresp0
    have h429 : (code == 429) = false := by
      simp [hne]
    have h500 : (code == 500) = false := by
      have : code ≠ 500 := by omega
      simp [this]
    have hraise : 400 ≤ code ∧ code < 600 := ⟨hge, by omega⟩
    simp [upload_file_to_workdrive, uploadLoop, hresp0, retryableResp,
      h429, h500, hraise]

/-- Witness for `C2_upload_retry`: three all-rate-limited attempts with
budget 3 produce three retries and a returned failure. -/
theorem C2_upload_retry_witness :
    (upload_file_to_workdrive (fun _ => UploadResp.status 429 false)
      (fun _ => 1) 3).1 = none ∧
    (upload_file_to_workdrive (fun _ => UploadResp.status 429 false)
      (fun _ => 1) 3).2.length = 3 := by
  have h := (C2_upload_retry 3 (fun _ => UploadResp.status 429 false)
    (fun _ => 1) (fun k => by norm_num)).1 (fun k => rfl)
  exact ⟨h.1, h.2.1⟩

/-! ## Claims about the image optimizer -/

/-- C7: the optimizer is a total function: it either returns the
re-encoded output with the reported sizes, or — when any step (decode,
color-mode normalization, resize, re-encode) fails — returns the
original bytes unchanged with reported final size equal to the original
size; the failure of each individual step forces the whole body to
fail, hence the fallback, and no error is ever propagated. -/
theorem C7_optimizer_fallback (op : PILOps) (data : List Nat) :
    ((∃ out, optimizeBody op data = some out ∧
        optimize_image_for_upload op data
          = (out, (data.length : ℚ) / 1024, (out.length : ℚ) / 1024)) ∨
      optimize_image_for_upload op data
        = (data, (data.length : ℚ) / 1024, (data.length : ℚ) / 1024)) ∧
    (optimizeBody op data = none →
      optimize_image_for_upload op data
        = (data, (data.length : ℚ) / 1024, (data.length : ℚ) / 1024)) ∧
    (op.open_img data = none → optimizeBody op data = none) ∧
    (∀ img, op.open_img data = some img → normalizeMode op img = none →
      optimizeBody op data = none) ∧
    (∀ img img2, op.open_img data = some img →
      normalizeMode op img = some img2 → op.resize img2 = none →
      optimizeBody op data = none) ∧
    (∀ img img2 img3, op.open_img data = some img →
      normalizeMode op img = some img2 → op.resize img2 = some img3 →
      op.saveJPEG img3 = none → optimizeBody op data = none) := by
  refine ⟨?_, fun h => ?_, fun h => ?_, fun img h1 h2 => ?_,
    fun img img2 h1 h2 h3 => ?_, fun img img2 img3 h1 h2 h3 h4 => ?_⟩
  · cases h : optimizeBody op data with
    | none => right; simp [optimize_image_for_upload, h]
    | some out => left; exact ⟨out, rfl, by simp [optimize_image_for_upload, h]⟩
  · simp [optimize_image_for_upload, h]
  · simp [optimizeBody, h]
  · simp [optimizeBody, h1, h2]
  · simp [optimizeBody, h1, h2, h3]
  · simp [optimizeBody, h1, h2, h3, h4]

/-- Witness for `C7_optimizer_fallback`: an undecodable byte string is
passed through unchanged with equal reported sizes. -/
theorem C7_optimizer_fallback_witness :
    optimize_image_for_upload
      (⟨fun _ => none, fun i => some i, fun i => some i, fun i => some i,
        fun _ => some [5]⟩ : PILOps) [1, 2, 3]
      = ([1, 2, 3], (3 : ℚ) / 1024, (3 : ℚ) / 1024) := by
  have h := (C7_optimizer_fallback
    (⟨fun _ => none, fun i => some i, fun i => some i, fun i => some i,
      fun _ => some [5]⟩ : PILOps) [1, 2, 3]).2.1 (by rfl)
  simpa using h

/-! ## Claims about the batch upload coordinator -/

/-- Running the batch loop from an accumulator prepends it to the
result of running from the empty accumulator. -/
theorem batchLoop_acc (env : BatchEnv) (timestamp : String) :
    ∀ (ds : List Design) (idx : Nat) (acc : List UploadEntry),
      batchLoop env timestamp idx ds acc
        = acc ++ batchLoop env timestamp idx ds [] := by
  intro ds
  induction ds with
  | nil => intro idx acc; simp [batchLoop]
  | cons d rest ih =>
    intro idx acc
    have h1 := ih (idx + 1) (batchAcc acc (processItem env timestamp idx d))
    have h2 := ih (idx + 1) (batchAcc [] (processItem env timestamp idx d))
    simp only [batchLoop]
    rw [h1, h2]
    cases processItem env timestamp idx d <;>
      simp [batchAcc, List.append_assoc]

/-- A design on which processing fails contributes nothing, and the
loop continues over the remaining designs at the shifted indices. -/
theorem batchLoop_skip (env : BatchEnv) (timestamp : String)
    (bad : Design) (ys : List Design) :
    ∀ (xs : List Design) (idx : Nat),
      processItem env timestamp (idx + xs.length) bad = none →
      batchLoop env timestamp idx (xs ++ bad :: ys) []
        = batchLoop env timestamp idx xs []
          ++ batchLoop env timestamp (idx + xs.length + 1) ys [] := by
  intro xs
  induction xs with
  | nil =>
    intro idx hbad
    simp only [List.length_nil, Nat.add_zero] at hbad
    simp [batchLoop, batchAcc, hbad]
  | cons x xs ih =>
    intro idx hbad
    have hbad' : processItem env timestamp (idx + 1 + xs.length) bad
        = none := by
      have harg : idx + 1 + xs.length = idx + (x :: xs).length := by
        simp only [List.length_cons]
        omega
      rw [harg]
      exact hbad
    have hcons : (x :: xs) ++ bad :: ys = x :: (xs ++ bad :: ys) := rfl
    rw [hcons, batchLoop, batchLoop]
    rw [batchLoop_acc env timestamp (xs ++ bad :: ys) (idx + 1),
      ih (idx + 1) hbad',
      batchLoop_acc env timestamp xs (idx + 1)
        (batchAcc [] (processItem env timestamp idx x))]
    have harg2 : idx + 1 + xs.length + 1 = idx + (x :: xs).length + 1 := by
      simp only [List.length_cons]
      omega
    rw [harg2]
    simp [List.append_assoc]

/-- C6: once the batch reaches the per-item upload phase (folder and
token resolved), the overall success flag is true exactly when at least
one design uploaded; the uploads list is the loop's accumulation, which
skips a failing item and continues with the remaining items at their
original positions; and the note-creation collaborator influences
neither the success flag nor the uploads list — its failure only
degrades the report's message. -/
theorem C6_batch_report (env : BatchEnv) (note : List UploadEntry → Bool)
    (timestamp : String) (designs : List Design) (f t : String)
    (hf : env.folder = some f) (ht : env.token = some t) :
    ((batch_upload_designs_to_workdrive env note timestamp designs).success
        = true
      ↔ (batch_upload_designs_to_workdrive env note timestamp
          designs).uploads ≠ []) ∧
    (batch_upload_designs_to_workdrive env note timestamp designs).uploads
      = batchLoop env timestamp 0 designs [] ∧
    (∀ note2 : List UploadEntry → Bool,
      (batch_upload_designs_to_workdrive env note2 timestamp designs).success
        = (batch_upload_designs_to_workdrive env note timestamp
            designs).success ∧
      (batch_upload_designs_to_workdrive env note2 timestamp designs).uploads
        = (batch_upload_designs_to_workdrive env note timestamp
            designs).uploads) ∧
    (batchLoop env timestamp 0 designs [] ≠ [] →
      note (batchLoop env timestamp 0 designs []) = false →
      batch_upload_designs_to_workdrive env note timestamp designs
        = ⟨true, batchLoop env timestamp 0 designs [],
            "Designs uploaded successfully, but failed to create a note in Zoho CRM."⟩) ∧
    (∀ xs bad ys, designs = xs ++ bad :: ys →
      processItem env timestamp xs.length bad = none →
      batchLoop env timestamp 0 designs []
        = batchLoop env timestamp 0 xs []
          ++ batchLoop env timestamp (xs.length + 1) ys []) := by
  have hbody : ∀ nt : List UploadEntry → Bool,
      batch_upload_designs_to_workdrive env nt timestamp designs
        = (let ups := batchLoop env timestamp 0 designs []
           if ups.isEmpty then
             (⟨false, [],
               "No designs were successfully uploaded to Zoho WorkDrive."⟩
                 : BatchReport)
           else if nt ups then
             ⟨true, ups, "Successfully uploaded " ++ toString ups.length
               ++ " designs to Zoho WorkDrive."⟩
           else
             ⟨true, ups,
               "Designs uploaded successfully, but failed to create a note in Zoho CRM."⟩) := by
    intro nt
    simp [batch_upload_designs_to_workdrive, hf, ht]
  refine ⟨?_, ?_, fun note2 => ⟨?_, ?_⟩, fun hne hnote => ?_, ?_⟩
  · rw [hbody note]
    cases hemp : (batchLoop env timestamp 0 designs []).isEmpty
    · have hne : batchLoop env timestamp 0 designs [] ≠ [] := by
        intro h0
        rw [h0] at hemp
        simp at hemp
      cases hnote : note (batchLoop env timestamp 0 designs []) <;>
        simp [hemp, hnote, hne]
    · have heq : batchLoop env timestamp 0 designs [] = [] :=
        List.isEmpty_iff.mp hemp
      simp [hemp, heq]
  · rw [hbody note]
    cases hemp : (batchLoop env timestamp 0 designs []).isEmpty
    · cases hnote : note (batchLoop env timestamp 0 designs []) <;>
        simp [hemp, hnote]
    · have heq : batchLoop env timestamp 0 designs [] = [] :=
        List.isEmpty_iff.mp hemp
      simp [hemp, heq]
  · rw [hbody note, hbody note2]
    cases hemp : (batchLoop env timestamp 0 designs []).isEmpty
    · cases hnote : note (batchLoop env timestamp 0 designs []) <;>
        cases hnote2 : note2 (batchLoop env timestamp 0 designs []) <;>
          simp [hemp, hnote, hnote2]
    · simp [hemp]
  · rw [hbody note, hbody note2]
    cases hemp : (batchLoop env timestamp 0 designs []).isEmpty
    · cases hnote : note (batchLoop env timestamp 0 designs []) <;>
        cases hnote2 : note2 (batchLoop env timestamp 0 designs []) <;>
          simp [hemp, hnote, hnote2]
    · simp [hemp]
  · rw [hbody note]
    have hemp : (batchLoop env timestamp 0 designs []).isEmpty = false := by
      rcases h : batchLoop env timestamp 0 designs [] with _ | ⟨a, l⟩
      · exact absurd h hne
      · rfl
    simp [hemp, hnote]
  · intro xs bad ys hds hbad
    subst hds
    have := batchLoop_skip env timestamp bad ys xs 0
      (by simpa using hbad)
    simpa using this

/-- Witness for `C6_batch_report`: a two-design batch whose first item
has no image source and whose second uploads, with a failing
note-creation step, reports success with one upload and the degraded
message. -/
theorem C6_batch_report_witness :
    batch_upload_designs_to_workdrive
      (⟨some "folder1", some "token1", fun _ => some [1],
        fun _ => some [9],
        ⟨fun _ => some ⟨"RGB", 0⟩, fun i => some i, fun i => some i,
          fun i => some i, fun _ => some [5]⟩,
        fun _ _ => some ⟨"res1", "https://workdrive.zoho.com/file/res1"⟩⟩
        : BatchEnv)
      (fun _ => false) "20250101"
      [(⟨none, none, none⟩ : Design),
       (⟨some "Modern", some "https://img.example/a.png", none⟩ : Design)]
      = ⟨true,
          [⟨"design_Modern_20250101.png",
            "https://workdrive.zoho.com/file/res1", "res1", "Modern"⟩],
          "Designs uploaded successfully, but failed to create a note in Zoho CRM."⟩ := by
  have h := (C6_batch_report
    (⟨some "folder1", some "token1", fun _ => some [1],
      fun _ => some [9],
      ⟨fun _ => some ⟨"RGB", 0⟩, fun i => some i, fun i => some i,
        fun i => some i, fun _ => some [5]⟩,
      fun _ _ => some ⟨"res1", "https://workdrive.zoho.com/file/res1"⟩⟩
      : BatchEnv)
    (fun _ => false) "20250101"
    [(⟨none, none, none⟩ : Design),
     (⟨some "Modern", some "https://img.example/a.png", none⟩ : Design)]
    "folder1" "token1" rfl rfl).2.2.2.1 (by decide) (by rfl)
  simpa using h

end MetalPromo
